import Mathlib

/-!
Verification of the anomaly-detection core of the CloudWalk Operations
Intelligence repository (src/alerts.py), a rolling-statistics Z-score
monitor over daily metric series.

Modelling conventions:
* Real numbers of the source are modelled as exact rationals; IEEE NaN is
  modelled by `Option`, with `none` standing for NaN.  The pandas calls
  `rolling(window=w).mean()` and `rolling(window=w).std()` use the default
  `min_periods = w`, so a position whose trailing window is not full
  yields NaN; the sample standard deviation (ddof = 1) additionally
  requires a window of at least 2 observations.
* A standard deviation is the square root of the sample variance and is
  irrational in general, so a defined nonzero Z-score is carried
  symbolically by `ZVal.val num variance`, denoting `num / sqrt variance`
  with `variance > 0`.  The guards of the source compare the standard
  deviation with 0 and NaN, and those tests coincide with the same tests
  on the variance, which is what the embedding stores.
* The external tabular store (src/database.py) is out of scope per the
  specification; it is abstracted as a `DataSource` record of fetch
  results, where `Except.error` models a raised data-access exception and
  an empty frame subsequently makes `iloc[-1]` raise an index error.
-/

/-- Severity levels of an alert, from `class AlertSeverity(Enum)`. -/
inductive AlertSeverity where
  | normal
  | warning
  | critical
deriving DecidableEq, Repr, Inhabited

/-- String value of a severity, mirroring the `Enum` values
`"normal"`, `"warning"`, `"critical"`. -/
def AlertSeverity.value : AlertSeverity → String
  | .normal => "normal"
  | .warning => "warning"
  | .critical => "critical"

/-- Symbolic representation of a defined (non-NaN) Z-score float.
`zero` is the literal `0.0` returned by the guard branches of
`_calculate_z_score`; `val num variance` denotes the real number
`num / sqrt variance` produced by its division branch, where `num` is
`current - mean` and `variance` is the sample variance whose square root
is the standard deviation passed in. -/
inductive ZVal where
  | zero
  | val (num : ℚ) (variance : ℚ)
deriving DecidableEq, Repr

/-- Truth value of `z_score < 0` on a possibly-NaN Z-score (`none` is
NaN, whose comparisons are all false in Python).  For `val num v` with
`v > 0` the sign is the sign of `num`. -/
def zIsNeg : Option ZVal → Bool
  | none => false
  | some .zero => false
  | some (.val num _) => decide (num < 0)

/-- Truth value of `abs(z_score) >= t` for a defined Z-score.  For
`val num v` with `v > 0` this is `t <= 0 or num ^ 2 >= t ^ 2 * v`, an
exact rational rephrasing of `abs (num / sqrt v) >= t`. -/
def ZVal.absGe (z : ZVal) (t : ℚ) : Bool :=
  match z with
  | .zero => decide (t ≤ 0)
  | .val num v => decide (t ≤ 0) || decide (t ^ 2 * v ≤ num ^ 2)

/-- Detector configuration, from `AnomalyDetector.__init__`
(src/alerts.py lines 75-99): the constructor merely stores the window
and the two thresholds; it performs no validation of any kind. -/
structure AnomalyDetector where
  window : ℕ
  warning_threshold : ℚ
  critical_threshold : ℚ
deriving DecidableEq, Repr

/-- Constructor of the detector.  The source defaults are
`window = 30`, `warning_threshold = 2.0`, `critical_threshold = 3.0`;
the body only assigns the attributes. -/
def AnomalyDetector.init (window : ℕ) (warning_threshold critical_threshold : ℚ) :
    AnomalyDetector :=
  { window := window
    warning_threshold := warning_threshold
    critical_threshold := critical_threshold }

/-- Detector built with the source default arguments. -/
def defaultDetector : AnomalyDetector := AnomalyDetector.init 30 2 3

/-- Z-score computation from `_calculate_z_score` (lines 101-120):
`if std == 0 or np.isnan(std): return 0.0` else
`(current - mean) / std`.  The standard deviation argument is carried as
its square, the sample variance (`none` for NaN): the two guard tests
agree with the tests on the variance, and the division branch is the
symbolic `ZVal.val`.  A NaN `mean` with a defined nonzero deviation
would propagate NaN, hence the outer `Option`; the flow of the checks
never produces that combination. -/
def calculate_z_score (current : ℚ) (mean variance : Option ℚ) : Option ZVal :=
  match variance with
  | none => some ZVal.zero
  | some v =>
    if v = 0 then some ZVal.zero
    else
      match mean with
      | none => none
      | some m => some (ZVal.val (current - m) v)

/-- Severity classification from `_get_severity` (lines 122-139), as the
source writes it for a real (non-NaN) Z-score argument. -/
def get_severity (warning_threshold critical_threshold z : ℚ) : AlertSeverity :=
  if |z| ≥ critical_threshold then .critical
  else if |z| ≥ warning_threshold then .warning
  else .normal

/-- Rank of a severity, with the convention of `get_alerts_for_display`
(`critical` first): `critical = 0 < warning = 1 < normal = 2`. -/
def sevRank : AlertSeverity → ℕ
  | .critical => 0
  | .warning => 1
  | .normal => 2

/-- Severity classification applied to the possibly-NaN symbolic Z-score
produced inside a check.  A NaN Z-score compares false against both
thresholds, giving `normal`; a defined value follows the `_get_severity`
if-chain via the exact comparison `ZVal.absGe`. -/
def severityOfZ (d : AnomalyDetector) : Option ZVal → AlertSeverity
  | none => .normal
  | some z =>
    if z.absGe d.critical_threshold then .critical
    else if z.absGe d.warning_threshold then .warning
    else .normal

/-- Percentage change as computed inline by each check (line 211 and its
clones): `((current - expected) / expected) * 100 if expected else 0`.
A NaN `expected` is truthy in Python and propagates NaN; a zero
`expected` is falsy and yields `0`. -/
def change_pct_of (current : ℚ) (expected : Option ℚ) : Option ℚ :=
  match expected with
  | none => none
  | some e => if e = 0 then some 0 else some ((current - e) / e * 100)

/-- Trailing window of at most `w` observations ending at and including
position `i`, the spans aggregated by `Series.rolling(window=w)`. -/
def windowSlice (w : ℕ) (xs : List ℚ) (i : ℕ) : List ℚ :=
  (xs.take (i + 1)).drop (i + 1 - w)

/-- Rolling mean from `rolling(window=w).mean()` with the pandas default
`min_periods = w`: defined only where a full window of `w` observations
ending at position `i` exists, NaN (`none`) elsewhere. -/
def rolling_mean (w : ℕ) (xs : List ℚ) (i : ℕ) : Option ℚ :=
  if w ≤ i + 1 ∧ i < xs.length then some ((windowSlice w xs i).sum / (w : ℚ))
  else none

/-- Rolling sample variance underlying `rolling(window=w).std()` with the
pandas default `min_periods = w` and `ddof = 1`: defined only where a
full window exists and `w ≥ 2` (the sample deviation of a single
observation is NaN), NaN (`none`) elsewhere.  The standard deviation of
the source is the square root of this value. -/
def rolling_var (w : ℕ) (xs : List ℚ) (i : ℕ) : Option ℚ :=
  if 2 ≤ w ∧ w ≤ i + 1 ∧ i < xs.length then
    some (((windowSlice w xs i).map
      (fun x => (x - (windowSlice w xs i).sum / (w : ℚ)) ^ 2)).sum / ((w : ℚ) - 1))
  else none

/-- ASCII upper-casing of one character, as Python `str.upper` acts on
the ASCII identifiers appearing in metric and dimension labels. -/
def upperChar (c : Char) : Char :=
  if c.isLower then Char.ofNat (c.toNat - 32) else c

/-- ASCII upper-casing of a string, modelling Python `str.upper` on the
ASCII labels used by the alert messages. -/
def strUpper (s : String) : String :=
  String.mk (s.data.map upperChar)

/-- Regrouping step over a reversed digit list: after every three digits
a comma is inserted, implementing the `,` option of a Python format
specification. -/
def groupRev : List Char → List Char
  | a :: b :: c :: d :: rest => a :: b :: c :: ',' :: groupRev (d :: rest)
  | l => l

/-- Decimal rendering of a natural number with thousands separators. -/
def natGrouped (n : ℕ) : String :=
  String.mk ((groupRev (toString n).toList.reverse).reverse)

/-- Rounding to the nearest integer with ties to even, the rounding of
Python fixed-point formatting (idealized to exact rationals). -/
def roundHalfEven (q : ℚ) : ℤ :=
  if q - ⌊q⌋ < 1 / 2 then ⌊q⌋
  else if 1 / 2 < q - ⌊q⌋ then ⌊q⌋ + 1
  else if ⌊q⌋ % 2 = 0 then ⌊q⌋ else ⌊q⌋ + 1

/-- Zero padding of a digit string on the left to a requested width. -/
def padDigits (width : ℕ) (s : String) : String :=
  String.mk (List.replicate (width - s.length) '0') ++ s

/-- Fixed-point rendering of a rational with `prec` decimal places,
optionally with thousands separators, mirroring Python `format` specs
such as `:.1f`, `:.2f`, `:,.2f` and `:,.0f`. -/
def fmtFixedQ (comma : Bool) (prec : ℕ) (q : ℚ) : String :=
  let n := roundHalfEven (q * (10 : ℚ) ^ prec)
  let sign := if n < 0 then "-" else ""
  let m := n.natAbs
  let ip := m / 10 ^ prec
  let ipStr := if comma then natGrouped ip else toString ip
  if prec = 0 then sign ++ ipStr
  else sign ++ ipStr ++ "." ++ padDigits prec (toString (m % 10 ^ prec))

/-- Rendering of a possibly-NaN float value: Python formats a NaN float
as the string `nan` under every fixed-point specification. -/
def fmtOpt (comma : Bool) (prec : ℕ) : Option ℚ → String
  | none => "nan"
  | some q => fmtFixedQ comma prec q

/-- Two-decimal rendering of a defined symbolic Z-score.  For
`val num v` the rendered magnitude is the correctly rounded value of
`abs num / sqrt v`, computed through an integer square root (an exact
half-way case, only possible when the quotient is rational, rounds
up). -/
def ZVal.render2 : ZVal → String
  | .zero => fmtFixedQ false 2 0
  | .val num v =>
    let m := Nat.sqrt (40000 * num ^ 2 / v).floor.toNat
    let r := (m + 1) / 2
    (if num < 0 then "-" else "") ++ toString (r / 100) ++ "." ++
      padDigits 2 (toString (r % 100))

/-- Rendering of a possibly-NaN Z-score to two decimals. -/
def zRender : Option ZVal → String
  | none => "nan"
  | some z => z.render2

/-- Message construction from `_format_message` (src/alerts.py lines
141-176), used by the total-TPV check and the per-product checks. -/
def format_message (metric dimension : String) (z_score : Option ZVal)
    (change_pct : Option ℚ) (current : ℚ) (expected : Option ℚ) : String :=
  let direction := if zIsNeg z_score then "dropped" else "spiked"
  let metric_label := strUpper metric
  let dim_text :=
    if dimension = "total" then "Total " ++ metric_label
    else metric_label ++ " for " ++ strUpper dimension
  dim_text ++ " " ++ direction ++ " " ++ fmtOpt false 1 (change_pct.map abs) ++
    "% (Z-score: " ++ zRender z_score ++ "). Current: R$ " ++
    fmtFixedQ true 2 current ++ ", Expected: R$ " ++ fmtOpt true 2 expected

/-- Modelled from the spec, section 4.4 step 5: the message template
`"<label> <dropped|spiked> <abs change_pct to one decimal>% (Z-score:
<z_score to two decimals>). Current: <currency two decimals>, Expected:
<currency two decimals>"`, where the direction word is `dropped` when
`z_score < 0` and otherwise `spiked`, and the label is
`Total <METRIC>` when the dimension is `total` and otherwise
`<METRIC> for <DIMENSION>`, both upper-cased. -/
def spec_message (metric dimension : String) (z_score : Option ZVal)
    (change_pct : Option ℚ) (current : ℚ) (expected : Option ℚ) : String :=
  (if dimension = "total" then "Total " ++ strUpper metric
   else strUpper metric ++ " for " ++ strUpper dimension) ++ " " ++
    (if zIsNeg z_score then "dropped" else "spiked") ++ " " ++
    fmtOpt false 1 (change_pct.map abs) ++ "% (Z-score: " ++ zRender z_score ++
    "). Current: R$ " ++ fmtFixedQ true 2 current ++ ", Expected: R$ " ++
    fmtOpt true 2 expected

/-- Message built inline by `check_transactions` (src/alerts.py lines
310-314): a fixed `Transaction count` label and integer renderings of
the current and expected values, without a currency prefix. -/
def transactions_message (z_score : Option ZVal) (change_pct : Option ℚ)
    (current : ℚ) (expected : Option ℚ) : String :=
  "Transaction count " ++ (if zIsNeg z_score then "dropped" else "spiked") ++
    " " ++ fmtOpt false 1 (change_pct.map abs) ++ "% (Z-score: " ++
    zRender z_score ++ "). Current: " ++ fmtFixedQ true 0 current ++
    ", Expected: " ++ fmtOpt true 0 expected

/-- Abstraction of the external tabular store as seen by the checks: the
date-ordered daily value series behind each query of src/alerts.py, and
the distinct product list.  An `error` fetch models a raised exception
inside `Database.execute_query`. -/
structure DataSource where
  tpv_daily : Except String (List ℚ)
  txn_daily : Except String (List ℚ)
  products : Except String (List String)
  product_daily : String → Except String (List ℚ)

/-- Failure of a single check: a propagated data-access exception, or
the pandas index error raised by `iloc[-1]` on an empty frame. -/
inductive DetectError where
  | dataAccess (msg : String)
  | indexOutOfBounds
deriving DecidableEq, Repr

/-- Anomaly alert record, from `@dataclass class Alert`. -/
structure Alert where
  metric : String
  dimension : String
  current_value : ℚ
  expected_value : Option ℚ
  z_score : Option ZVal
  severity : AlertSeverity
  change_pct : Option ℚ
  message : String
deriving DecidableEq, Repr, Inhabited

/-- Intermediate values of one check evaluation. -/
structure Evaluated where
  current : ℚ
  expected : Option ℚ
  z : Option ZVal
  sev : AlertSeverity
  chg : Option ℚ
deriving DecidableEq, Repr

/-- Statistics and classification block duplicated verbatim by the three
checks (src/alerts.py lines 196-211, 249-264 and 296-308): rolling mean
and deviation over the series, read at the second-to-last position when
the series has more than one entry and at the last (only) position
otherwise, then Z-score, severity and percentage change. -/
def evalSeries (d : AnomalyDetector) (current : ℚ) (xs : List ℚ) : Evaluated :=
  let n := xs.length
  let idx := if 1 < n then n - 2 else n - 1
  let prev_mean := rolling_mean d.window xs idx
  let prev_var := rolling_var d.window xs idx
  let z := calculate_z_score current prev_mean prev_var
  { current := current
    expected := prev_mean
    z := z
    sev := severityOfZ d z
    chg := change_pct_of current prev_mean }

/-- Total-TPV check, from `check_total_tpv` (src/alerts.py lines
178-222). -/
def check_total_tpv (d : AnomalyDetector) (src : DataSource) :
    Except DetectError Alert :=
  match src.tpv_daily with
  | .error e => .error (.dataAccess e)
  | .ok xs =>
    match xs.getLast? with
    | none => .error .indexOutOfBounds
    | some current =>
      let ev := evalSeries d current xs
      .ok { metric := "tpv", dimension := "total", current_value := ev.current,
            expected_value := ev.expected, z_score := ev.z, severity := ev.sev,
            change_pct := ev.chg,
            message := format_message "tpv" "total" ev.z ev.chg ev.current ev.expected }

/-- Transaction-count check, from `check_transactions` (src/alerts.py
lines 279-325); its message is built inline, not by `_format_message`. -/
def check_transactions (d : AnomalyDetector) (src : DataSource) :
    Except DetectError Alert :=
  match src.txn_daily with
  | .error e => .error (.dataAccess e)
  | .ok xs =>
    match xs.getLast? with
    | none => .error .indexOutOfBounds
    | some current =>
      let ev := evalSeries d current xs
      .ok { metric := "transactions", dimension := "total",
            current_value := ev.current, expected_value := ev.expected,
            z_score := ev.z, severity := ev.sev, change_pct := ev.chg,
            message := transactions_message ev.z ev.chg ev.current ev.expected }

/-- Evaluation of one product inside the loop of `check_tpv_by_product`
(src/alerts.py lines 236-275). -/
def productAlert (d : AnomalyDetector) (src : DataSource) (product : String) :
    Except DetectError Alert :=
  match src.product_daily product with
  | .error e => .error (.dataAccess e)
  | .ok xs =>
    match xs.getLast? with
    | none => .error .indexOutOfBounds
    | some current =>
      let ev := evalSeries d current xs
      .ok { metric := "tpv", dimension := product, current_value := ev.current,
            expected_value := ev.expected, z_score := ev.z, severity := ev.sev,
            change_pct := ev.chg,
            message := format_message "tpv" product ev.z ev.chg ev.current ev.expected }

/-- Sequential accumulation of the per-product loop: alerts are appended
in product order and an exception raised for any product aborts the
whole loop, as an uncaught Python exception would. -/
def mapChecks (f : String → Except DetectError Alert) :
    List String → Except DetectError (List Alert)
  | [] => .ok []
  | p :: ps =>
    match f p with
    | .error e => .error e
    | .ok a =>
      match mapChecks f ps with
      | .error e => .error e
      | .ok as => .ok (a :: as)

/-- Per-product TPV check, from `check_tpv_by_product` (src/alerts.py
lines 224-277): products are discovered dynamically via
`get_unique_values("product")` and one alert is built per product. -/
def check_tpv_by_product (d : AnomalyDetector) (src : DataSource) :
    Except DetectError (List Alert) :=
  match src.products with
  | .error e => .error (.dataAccess e)
  | .ok ps => mapChecks (productAlert d src) ps

/-- Summary counters of `run_all_checks`. -/
structure Summary where
  total_alerts : ℕ
  critical : ℕ
  warning : ℕ
  normal : ℕ
deriving DecidableEq, Repr, Inhabited

/-- Loop body of the severity tallying in `run_all_checks` (src/alerts.py
lines 349-356): each alert increments `total_alerts` and exactly one of
the three severity counters. -/
def tallyStep (s : Summary) (a : Alert) : Summary :=
  let s := { s with total_alerts := s.total_alerts + 1 }
  if a.severity = .critical then { s with critical := s.critical + 1 }
  else if a.severity = .warning then { s with warning := s.warning + 1 }
  else { s with normal := s.normal + 1 }

/-- Severity tallying loop of `run_all_checks` over all produced
alerts, starting from the zero counters of the literal dictionary. -/
def tally (alerts : List Alert) : Summary :=
  alerts.foldl tallyStep { total_alerts := 0, critical := 0, warning := 0, normal := 0 }

/-- Result dictionary of `run_all_checks`. -/
structure RunResults where
  total_tpv : Alert
  transactions : Alert
  by_product : List Alert
  summary : Summary
deriving DecidableEq, Repr, Inhabited

/-- Orchestration of the three checks, from `run_all_checks`
(src/alerts.py lines 327-358).  The checks run in the order total TPV,
transaction count, per-product; any exception propagates immediately and
aborts the remaining work, since the source installs no handler. -/
def run_all_checks (d : AnomalyDetector) (src : DataSource) :
    Except DetectError RunResults :=
  match check_total_tpv d src with
  | .error e => .error e
  | .ok t =>
    match check_transactions d src with
    | .error e => .error e
    | .ok x =>
      match check_tpv_by_product d src with
      | .error e => .error e
      | .ok ps =>
        .ok { total_tpv := t, transactions := x, by_product := ps,
              summary := tally ([t, x] ++ ps) }

/-- Icon hint per severity, from `_get_icon`. -/
def get_icon : AlertSeverity → String
  | .critical => "[!!!]"
  | .warning => "[!]"
  | .normal => "[OK]"

/-- Color hint per severity, from `_get_color`. -/
def get_color : AlertSeverity → String
  | .critical => "red"
  | .warning => "orange"
  | .normal => "green"

/-- Display record of `get_alerts_for_display`. -/
structure DisplayRecord where
  metric : String
  dimension : String
  severity : String
  change_pct : Option ℚ
  z_score : Option ZVal
  message : String
  icon : String
  color : String
deriving DecidableEq, Repr, Inhabited

/-- Flattening of one alert into its display dictionary. -/
def toDisplay (a : Alert) : DisplayRecord :=
  { metric := a.metric, dimension := a.dimension, severity := a.severity.value,
    change_pct := a.change_pct, z_score := a.z_score, message := a.message,
    icon := get_icon a.severity, color := get_color a.severity }

/-- Sort key of `get_alerts_for_display`: the dictionary
`{"critical": 0, "warning": 1, "normal": 2}` (only those three strings
ever occur as severities). -/
def severity_order (s : String) : ℕ :=
  if s = "critical" then 0 else if s = "warning" then 1 else 2

/-- Comparison used by the display sort. -/
def displayLE (a b : DisplayRecord) : Prop :=
  severity_order a.severity ≤ severity_order b.severity

instance : DecidableRel displayLE := fun _ _ => Nat.decLe _ _

instance : IsTotal DisplayRecord displayLE := ⟨fun _ _ => Nat.le_total _ _⟩

instance : IsTrans DisplayRecord displayLE := ⟨fun _ _ _ => Nat.le_trans⟩

/-- Display feed, from `get_alerts_for_display` (src/alerts.py lines
360-387): the alerts are flattened in evaluation order (total TPV,
transactions, then products) and sorted by severity rank with the stable
`list.sort`, modelled by the stable insertion sort. -/
def get_alerts_for_display (d : AnomalyDetector) (src : DataSource) :
    Except DetectError (List DisplayRecord) :=
  match run_all_checks d src with
  | .error e => .error e
  | .ok r =>
    .ok (List.insertionSort displayLE
      (([r.total_tpv, r.transactions] ++ r.by_product).map toDisplay))

/-- Concrete store with a single-entry series for every metric and no
products. -/
def srcSingle : DataSource :=
  { tpv_daily := .ok [500], txn_daily := .ok [500], products := .ok [],
    product_daily := fun _ => .ok [500] }

/-- Concrete store with two-entry series and one product. -/
def srcShort : DataSource :=
  { tpv_daily := .ok [100, 200], txn_daily := .ok [100, 200],
    products := .ok (["pix"]),
    product_daily := fun _ => .ok [100, 200] }

/-- Concrete store where the fetch for one of three products raises a
data-access error while every other fetch succeeds. -/
def srcOneBad : DataSource :=
  { tpv_daily := .ok [100, 100], txn_daily := .ok [100, 100],
    products := .ok (["A", "B", "C"]),
    product_daily := fun p => if p = "B" then .error ("db failure") else .ok [100, 100] }

/-- Alert produced by the total-TPV check on the single-entry store. -/
def alertSingleTPV : Alert :=
  (check_total_tpv defaultDetector srcSingle).toOption.getD default

/-- Alert produced by the product check on the single-entry store. -/
def alertSingleProduct : Alert :=
  (productAlert defaultDetector srcSingle ("pix")).toOption.getD default

/-- Alert produced by the transaction check on the two-entry store. -/
def alertShortTxn : Alert :=
  (check_transactions defaultDetector srcShort).toOption.getD default

/-- Orchestration result on the single-entry store. -/
def runSingle : RunResults :=
  (run_all_checks defaultDetector srcSingle).toOption.getD default

/-- Orchestration result on the two-entry store. -/
def runShort : RunResults :=
  (run_all_checks defaultDetector srcShort).toOption.getD default

/-- Display feed on the two-entry store. -/
def displayShort : List DisplayRecord :=
  (get_alerts_for_display defaultDetector srcShort).toOption.getD default

/-- C1 counterexample: with the default window 30, a series of two
observations has NaN rolling statistics at its last position; the mean
is not the average of the available observations, refuting the
growing-window reading. -/
theorem c1_short_series_counterexample :
    rolling_mean 30 [(100 : ℚ), 200] 1 = none ∧
    rolling_mean 30 [(100 : ℚ), 200] 1 ≠ some (((100 : ℚ) + 200) / 2) ∧
    rolling_var 30 [(100 : ℚ), 200] 1 = none := by
  refine ⟨rfl, fun h => ?_, rfl⟩
  rw [show rolling_mean 30 [(100 : ℚ), 200] 1 = none from rfl] at h
  exact Option.noConfusion h

/-- C1 (amended): for every series shorter than the window, the rolling
mean and rolling variance are NaN at every position, because the pandas
default `min_periods` equals the window; the checks nevertheless do not
fail on such a series (a nonempty fetched series always yields an
alert). -/
theorem c1_short_series_stats_nan :
    (∀ (w : ℕ) (xs : List ℚ) (i : ℕ), xs.length < w →
      rolling_mean w xs i = none ∧ rolling_var w xs i = none) ∧
    (∀ (d : AnomalyDetector) (src : DataSource) (xs : List ℚ),
      src.tpv_daily = .ok xs → xs ≠ [] →
      (check_total_tpv d src).toOption.isSome = true) := by
  constructor
  · intro w xs i h
    constructor
    · unfold rolling_mean
      rw [if_neg]
      omega
    · unfold rolling_var
      rw [if_neg]
      omega
  · intro d src xs hsrc hne
    unfold check_total_tpv
    rw [hsrc]
    cases xs with
    | nil => exact absurd rfl hne
    | cons a t => rfl

/-- C1 witness: the amended statement at the concrete two-entry series
and the two-entry store. -/
theorem c1_short_series_stats_nan_witness :
    (rolling_mean 30 [(100 : ℚ), 200] 1 = none ∧
      rolling_var 30 [(100 : ℚ), 200] 1 = none) ∧
    (check_total_tpv defaultDetector srcShort).toOption.isSome = true :=
  ⟨c1_short_series_stats_nan.1 30 [100, 200] 1 (by decide),
    c1_short_series_stats_nan.2 defaultDetector srcShort [100, 200] rfl (by decide)⟩

/-- C3: the Z-score computation returns 0.0 whenever the standard
deviation is NaN or zero, and otherwise the quotient of
`current - mean` by the deviation (represented symbolically); the
percentage change is 0 whenever the expected value is zero, so no
division by zero is performed or propagated. -/
theorem c3_zscore_guards (c mval v : ℚ) (m : Option ℚ) :
    calculate_z_score c m none = some ZVal.zero ∧
    calculate_z_score c m (some 0) = some ZVal.zero ∧
    (v ≠ 0 → calculate_z_score c (some mval) (some v) = some (ZVal.val (c - mval) v)) ∧
    change_pct_of c (some 0) = some 0 :=
  ⟨rfl, by simp [calculate_z_score], fun hv => by simp [calculate_z_score, hv],
    by simp [change_pct_of]⟩

/-- C3 witness: the guard theorem at concrete inputs. -/
theorem c3_zscore_guards_witness :
    calculate_z_score 7 (some 3) (some 4) = some (ZVal.val (7 - 3) 4) ∧
    change_pct_of 7 (some 0) = some 0 :=
  ⟨(c3_zscore_guards 7 3 4 (some 3)).2.2.1 (by norm_num),
    (c3_zscore_guards 7 3 4 (some 3)).2.2.2⟩

/-- C5 counterexample: constructing the detector with
`warning_threshold = 5 > 3 = critical_threshold` does not fail: the
invalid configuration is stored as given and a check runs against it,
refuting the fail-fast claim. -/
theorem c5_no_validation_counterexample :
    (AnomalyDetector.init 30 5 3).critical_threshold <
      (AnomalyDetector.init 30 5 3).warning_threshold ∧
    (check_total_tpv (AnomalyDetector.init 30 5 3) srcSingle).toOption.isSome = true :=
  ⟨by norm_num [AnomalyDetector.init], rfl⟩

/-- C5 (amended): initialization performs no threshold validation:
every configuration, valid or not, is accepted, the given thresholds are
stored unchanged, and checks run under it. -/
theorem c5_init_accepts_all_configs (w : ℕ) (warn crit : ℚ) (src : DataSource)
    (xs : List ℚ) (hsrc : src.tpv_daily = .ok xs) (hne : xs ≠ []) :
    (AnomalyDetector.init w warn crit).warning_threshold = warn ∧
    (AnomalyDetector.init w warn crit).critical_threshold = crit ∧
    (check_total_tpv (AnomalyDetector.init w warn crit) src).toOption.isSome = true := by
  refine ⟨rfl, rfl, ?_⟩
  unfold check_total_tpv
  rw [hsrc]
  cases xs with
  | nil => exact absurd rfl hne
  | cons a t => rfl

/-- C5 witness: the amended statement at the inverted configuration and
the single-entry store. -/
theorem c5_init_accepts_all_configs_witness :
    (AnomalyDetector.init 30 5 3).warning_threshold = 5 ∧
    (AnomalyDetector.init 30 5 3).critical_threshold = 3 ∧
    (check_total_tpv (AnomalyDetector.init 30 5 3) srcSingle).toOption.isSome = true :=
  c5_init_accepts_all_configs 30 5 3 srcSingle [500] rfl (by decide)

/-- C2: severity is CRITICAL exactly when the absolute Z-score reaches
the critical threshold, WARNING exactly when it reaches the warning
threshold but not the critical one, NORMAL otherwise; and for fixed
thresholds with `warning_threshold <= critical_threshold` the severity
tier never decreases as the absolute Z-score grows. -/
theorem c2_severity_tiers_monotone (warn crit z z2 : ℚ) (h : warn ≤ crit) :
    ((get_severity warn crit z = .critical ↔ crit ≤ |z|) ∧
      (get_severity warn crit z = .warning ↔ warn ≤ |z| ∧ |z| < crit) ∧
      (get_severity warn crit z = .normal ↔ |z| < warn)) ∧
    (|z| ≤ |z2| → sevRank (get_severity warn crit z2) ≤ sevRank (get_severity warn crit z)) := by
  constructor
  · unfold get_severity
    rcases le_or_lt crit |z| with hc | hc
    · rw [if_pos (show |z| ≥ crit from hc)]
      exact ⟨⟨fun _ => hc, fun _ => rfl⟩,
        ⟨fun hh => AlertSeverity.noConfusion hh,
          fun hh => absurd hc (not_le.mpr hh.2)⟩,
        ⟨fun hh => AlertSeverity.noConfusion hh,
          fun hn => absurd hc (not_le.mpr (lt_of_lt_of_le hn h))⟩⟩
    · rw [if_neg (not_le.mpr hc)]
      rcases le_or_lt warn |z| with hw2 | hw2
      · rw [if_pos (show |z| ≥ warn from hw2)]
        exact ⟨⟨fun hh => AlertSeverity.noConfusion hh,
            fun hcc => absurd hcc (not_le.mpr hc)⟩,
          ⟨fun _ => ⟨hw2, hc⟩, fun _ => rfl⟩,
          ⟨fun hh => AlertSeverity.noConfusion hh,
            fun hn => absurd hn (not_lt.mpr hw2)⟩⟩
      · rw [if_neg (not_le.mpr hw2)]
        exact ⟨⟨fun hh => AlertSeverity.noConfusion hh,
            fun hcc => absurd hcc (not_le.mpr hc)⟩,
          ⟨fun hh => AlertSeverity.noConfusion hh,
            fun hh => absurd hh.1 (not_le.mpr hw2)⟩,
          ⟨fun _ => hw2, fun _ => rfl⟩⟩
  · intro hz
    unfold get_severity
    split_ifs <;> simp [sevRank] <;> linarith

/-- C2 witness: the tier characterization and the monotonicity at
concrete inputs with the default thresholds. -/
theorem c2_severity_tiers_monotone_witness :
    (get_severity 2 3 4 = .critical ↔ (3 : ℚ) ≤ |(4 : ℚ)|) ∧
    sevRank (get_severity 2 3 4) ≤ sevRank (get_severity 2 3 1) :=
  ⟨(c2_severity_tiers_monotone 2 3 4 4 (by norm_num)).1.1,
    (c2_severity_tiers_monotone 2 3 1 4 (by norm_num)).2 (by norm_num)⟩

/-- C10: for every check configuration and every series with at least 2
but at most `window` observations, the rolling statistics read at the
second-to-last position are NaN, so the evaluation yields a zero
Z-score and NORMAL severity regardless of the observed values (for any
positive thresholds). -/
theorem c10_partial_window_normal (d : AnomalyDetector) (current : ℚ) (xs : List ℚ)
    (hwarn : 0 < d.warning_threshold) (hcrit : 0 < d.critical_threshold)
    (h2 : 2 ≤ xs.length) (hw : xs.length ≤ d.window) :
    (evalSeries d current xs).expected = none ∧
    (evalSeries d current xs).z = some ZVal.zero ∧
    (evalSeries d current xs).sev = AlertSeverity.normal := by
  have hidx : (if 1 < xs.length then xs.length - 2 else xs.length - 1) = xs.length - 2 :=
    if_pos (by omega)
  have hm : rolling_mean d.window xs (xs.length - 2) = none := by
    unfold rolling_mean
    rw [if_neg]
    omega
  have hv : rolling_var d.window xs (xs.length - 2) = none := by
    unfold rolling_var
    rw [if_neg]
    omega
  refine ⟨?_, ?_, ?_⟩
  · show rolling_mean d.window xs
      (if 1 < xs.length then xs.length - 2 else xs.length - 1) = none
    rw [hidx]
    exact hm
  · show calculate_z_score current
      (rolling_mean d.window xs (if 1 < xs.length then xs.length - 2 else xs.length - 1))
      (rolling_var d.window xs (if 1 < xs.length then xs.length - 2 else xs.length - 1)) =
      some ZVal.zero
    rw [hidx, hm, hv]
    rfl
  · show severityOfZ d (calculate_z_score current
      (rolling_mean d.window xs (if 1 < xs.length then xs.length - 2 else xs.length - 1))
      (rolling_var d.window xs (if 1 < xs.length then xs.length - 2 else xs.length - 1))) =
      AlertSeverity.normal
    rw [hidx, hm, hv]
    show severityOfZ d (some ZVal.zero) = AlertSeverity.normal
    simp only [severityOfZ, ZVal.absGe, decide_eq_true_eq]
    rw [if_neg (by linarith : ¬ d.critical_threshold ≤ 0),
      if_neg (by linarith : ¬ d.warning_threshold ≤ 0)]

/-- C10 witness: the partial-window statement at the two-entry series
under the default detector. -/
theorem c10_partial_window_normal_witness :
    (evalSeries defaultDetector 200 [100, 200]).expected = none ∧
    (evalSeries defaultDetector 200 [100, 200]).z = some ZVal.zero ∧
    (evalSeries defaultDetector 200 [100, 200]).sev = AlertSeverity.normal :=
  c10_partial_window_normal defaultDetector 200 [100, 200] (by norm_num [defaultDetector,
    AnomalyDetector.init]) (by norm_num [defaultDetector, AnomalyDetector.init])
    (by decide) (by decide)

/-- Helper: a zero Z-score classifies as NORMAL whenever both thresholds
are positive. -/
theorem severityOfZ_zero_normal (d : AnomalyDetector)
    (hwarn : 0 < d.warning_threshold) (hcrit : 0 < d.critical_threshold) :
    severityOfZ d (some ZVal.zero) = AlertSeverity.normal := by
  simp only [severityOfZ, ZVal.absGe, decide_eq_true_eq]
  rw [if_neg (by linarith : ¬ d.critical_threshold ≤ 0),
    if_neg (by linarith : ¬ d.warning_threshold ≤ 0)]

/-- C4 counterexample: on the single-entry series `[500]` under the
default window 30, the expected value is NaN, not the current value 500,
and the percentage change is NaN, not 0. -/
theorem c4_single_entry_counterexample :
    alertSingleTPV.expected_value = none ∧
    alertSingleTPV.expected_value ≠ some 500 ∧
    alertSingleTPV.change_pct = none := by
  refine ⟨rfl, fun h => ?_, rfl⟩
  rw [show alertSingleTPV.expected_value = none from rfl] at h
  exact Option.noConfusion h

/-- C4 (amended): for every series with exactly one entry and any window
of at least 2, the alert built by the total-TPV check carries a NaN
expected value and NaN percentage change (not the current value and 0),
while the zero Z-score and NORMAL severity do hold for positive
thresholds. -/
theorem c4_single_entry_degraded (d : AnomalyDetector) (src : DataSource) (v : ℚ)
    (a : Alert) (hw : 2 ≤ d.window) (hwarn : 0 < d.warning_threshold)
    (hcrit : 0 < d.critical_threshold) (hsrc : src.tpv_daily = .ok [v])
    (hchk : check_total_tpv d src = .ok a) :
    a.expected_value = none ∧ a.change_pct = none ∧
    a.z_score = some ZVal.zero ∧ a.severity = AlertSeverity.normal := by
  unfold check_total_tpv at hchk
  rw [hsrc] at hchk
  injection hchk with ha
  subst ha
  have hm : rolling_mean d.window [v] 0 = none := by
    unfold rolling_mean
    exact if_neg (fun hcond => by omega)
  have hv2 : rolling_var d.window [v] 0 = none := by
    unfold rolling_var
    exact if_neg (fun hcond => by omega)
  refine ⟨?_, ?_, ?_, ?_⟩
  · exact hm
  · show change_pct_of v (rolling_mean d.window [v] 0) = none
    rw [hm]
    rfl
  · show calculate_z_score v (rolling_mean d.window [v] 0)
      (rolling_var d.window [v] 0) = some ZVal.zero
    rw [hm, hv2]
    rfl
  · show severityOfZ d (calculate_z_score v (rolling_mean d.window [v] 0)
      (rolling_var d.window [v] 0)) = AlertSeverity.normal
    rw [hm, hv2]
    exact severityOfZ_zero_normal d hwarn hcrit

/-- C4 witness: the amended statement at the single-entry store under
the default detector. -/
theorem c4_single_entry_degraded_witness :
    alertSingleTPV.expected_value = none ∧ alertSingleTPV.change_pct = none ∧
    alertSingleTPV.z_score = some ZVal.zero ∧
    alertSingleTPV.severity = AlertSeverity.normal :=
  c4_single_entry_degraded defaultDetector srcSingle 500 alertSingleTPV
    (by decide) (by decide) (by decide) rfl rfl

/-- C8 counterexample: when the fetch for one of three products raises,
`run_all_checks` returns no result at all, even though both total checks
and the first product in isolation succeed — no per-check error marker
is produced and the remaining alerts are lost. -/
theorem c8_no_isolation_counterexample :
    (run_all_checks defaultDetector srcOneBad).toOption = none ∧
    (check_total_tpv defaultDetector srcOneBad).toOption.isSome = true ∧
    (check_transactions defaultDetector srcOneBad).toOption.isSome = true ∧
    (productAlert defaultDetector srcOneBad ("A")).toOption.isSome = true :=
  ⟨rfl, rfl, rfl, rfl⟩

/-- C8 (amended): `run_all_checks` installs no per-check isolation: it
fails exactly when any one of its three checks fails, propagating the
first raised error and aborting the remaining checks, so no alerts are
returned for the others. -/
theorem c8_failure_aborts_run (d : AnomalyDetector) (src : DataSource) :
    (run_all_checks d src).toOption = none ↔
      ((check_total_tpv d src).toOption = none ∨
        (check_transactions d src).toOption = none ∨
        (check_tpv_by_product d src).toOption = none) := by
  unfold run_all_checks
  cases h1 : check_total_tpv d src with
  | error e => simp [h1, Except.toOption]
  | ok t =>
    cases h2 : check_transactions d src with
    | error e => simp [h1, h2, Except.toOption]
    | ok x =>
      cases h3 : check_tpv_by_product d src with
      | error e => simp [h1, h2, h3, Except.toOption]
      | ok ps => simp [h1, h2, h3, Except.toOption]

/-- Helper: a successful `mapChecks` run returns one alert per input
product. -/
theorem mapChecks_length (f : String → Except DetectError Alert) :
    ∀ (ps : List String) (as : List Alert),
      mapChecks f ps = .ok as → as.length = ps.length := by
  intro ps
  induction ps with
  | nil =>
    intro as h
    unfold mapChecks at h
    cases h
    rfl
  | cons p t ih =>
    intro as h
    unfold mapChecks at h
    cases hf : f p with
    | error e =>
      simp only [hf] at h
      exact Except.noConfusion h
    | ok a =>
      simp only [hf] at h
      cases hm : mapChecks f t with
      | error e =>
        simp only [hm] at h
        exact Except.noConfusion h
      | ok as2 =>
        simp only [hm] at h
        cases h
        simp [ih as2 hm]

/-- Helper: each tallying step increments the total by one. -/
theorem tallyStep_total (s : Summary) (a : Alert) :
    (tallyStep s a).total_alerts = s.total_alerts + 1 := by
  unfold tallyStep
  split_ifs <;> rfl

/-- Helper: each tallying step increments exactly one severity counter. -/
theorem tallyStep_parts (s : Summary) (a : Alert) :
    (tallyStep s a).critical + (tallyStep s a).warning + (tallyStep s a).normal =
      s.critical + s.warning + s.normal + 1 := by
  unfold tallyStep
  split_ifs <;> dsimp <;> omega

/-- Helper: the tallying fold counts every alert once in the total and
once across the three severity buckets. -/
theorem tally_foldl (alerts : List Alert) : ∀ s : Summary,
    (alerts.foldl tallyStep s).total_alerts = s.total_alerts + alerts.length ∧
    (alerts.foldl tallyStep s).critical + (alerts.foldl tallyStep s).warning +
      (alerts.foldl tallyStep s).normal =
      s.critical + s.warning + s.normal + alerts.length := by
  induction alerts with
  | nil =>
    intro s
    simp
  | cons a t ih =>
    intro s
    simp only [List.foldl_cons, List.length_cons]
    obtain ⟨ht, hp⟩ := ih (tallyStep s a)
    refine ⟨?_, ?_⟩
    · rw [ht, tallyStep_total]
      omega
    · rw [hp, tallyStep_parts]
      omega

/-- Helper: the summary of a list of alerts has the list length as its
total and the severity counters partition it. -/
theorem tally_spec (alerts : List Alert) :
    (tally alerts).total_alerts = alerts.length ∧
    (tally alerts).critical + (tally alerts).warning + (tally alerts).normal =
      (tally alerts).total_alerts := by
  unfold tally
  obtain ⟨ht, hp⟩ := tally_foldl alerts
    { total_alerts := 0, critical := 0, warning := 0, normal := 0 }
  dsimp at ht hp
  omega

/-- C9: on every successful run, exactly one alert is produced per
discovered product plus the two total alerts, so the summary total is
`2 + number of products`, and the three severity counters partition the
total. -/
theorem c9_alert_counts (d : AnomalyDetector) (src : DataSource) (r : RunResults)
    (ps : List String) (hp : src.products = .ok ps)
    (hrun : run_all_checks d src = .ok r) :
    r.by_product.length = ps.length ∧
    r.summary.total_alerts = 2 + ps.length ∧
    r.summary.critical + r.summary.warning + r.summary.normal =
      r.summary.total_alerts := by
  unfold run_all_checks at hrun
  cases h1 : check_total_tpv d src with
  | error e => simp [h1] at hrun
  | ok t =>
    cases h2 : check_transactions d src with
    | error e => simp [h1, h2] at hrun
    | ok x =>
      cases h3 : check_tpv_by_product d src with
      | error e => simp [h1, h2, h3] at hrun
      | ok as =>
        simp only [h1, h2, h3, Except.ok.injEq] at hrun
        subst hrun
        unfold check_tpv_by_product at h3
        rw [hp] at h3
        have hlen := mapChecks_length (productAlert d src) ps as h3
        have hts := tally_spec ([t, x] ++ as)
        refine ⟨hlen, ?_, hts.2⟩
        have h4 := hts.1
        rw [List.length_append] at h4
        simp only [List.length_cons, List.length_nil] at h4
        show (tally ([t, x] ++ as)).total_alerts = 2 + ps.length
        omega

/-- C9 witness: the counting statement on the single-entry store, whose
product list is empty. -/
theorem c9_alert_counts_witness :
    runSingle.by_product.length = List.length ([] : List String) ∧
    runSingle.summary.total_alerts = 2 + List.length ([] : List String) ∧
    runSingle.summary.critical + runSingle.summary.warning + runSingle.summary.normal =
      runSingle.summary.total_alerts :=
  c9_alert_counts defaultDetector srcSingle runSingle [] rfl rfl

/-- Helper: inserting a record into a list keeps the sublist of records
of any fixed severity, with the inserted record in front when it has
that severity — the key stability property of the insertion step. -/
theorem filter_orderedInsert_severity (s : String) (a : DisplayRecord) :
    ∀ l : List DisplayRecord,
      (List.orderedInsert displayLE a l).filter (fun x => x.severity == s) =
        if a.severity == s then a :: l.filter (fun x => x.severity == s)
        else l.filter (fun x => x.severity == s) := by
  intro l
  induction l with
  | nil =>
    cases h : (a.severity == s) <;> simp [List.orderedInsert, List.filter_cons, h]
  | cons b t ih =>
    rw [List.orderedInsert]
    by_cases hab : displayLE a b
    · rw [if_pos hab]
      cases ha : (a.severity == s) <;> cases hb : (b.severity == s) <;>
        simp [List.filter_cons, ha, hb]
    · rw [if_neg hab]
      cases hb : (b.severity == s) with
      | false => simp [List.filter_cons, hb, ih]
      | true =>
        have ha : (a.severity == s) = false := by
          by_contra hcon
          rw [Bool.not_eq_false] at hcon
          have ha2 : a.severity = s := by simpa using hcon
          have hb2 : b.severity = s := by simpa using hb
          exact hab (by unfold displayLE; rw [ha2, hb2])
        simp [List.filter_cons, hb, ih, ha]

/-- Helper: the insertion sort by severity rank does not change the
sublist of records of any fixed severity — ties keep their original
relative order. -/
theorem filter_insertionSort_severity (s : String) (l : List DisplayRecord) :
    (List.insertionSort displayLE l).filter (fun x => x.severity == s) =
      l.filter (fun x => x.severity == s) := by
  induction l with
  | nil => rfl
  | cons a t ih =>
    rw [List.insertionSort, filter_orderedInsert_severity, ih]
    cases h : (a.severity == s) <;> simp [List.filter_cons, h]

/-- C6: the display feed is sorted by severity rank
(`critical = 0 < warning = 1 < normal = 2`), and for every severity the
records of that severity appear in their original evaluation order
(total TPV, transactions, then products in discovery order). -/
theorem c6_display_sorted_stable (d : AnomalyDetector) (src : DataSource)
    (r : RunResults) (l : List DisplayRecord)
    (hrun : run_all_checks d src = .ok r)
    (hdisp : get_alerts_for_display d src = .ok l) :
    List.Sorted displayLE l ∧
    ∀ s : String, l.filter (fun x => x.severity == s) =
      (([r.total_tpv, r.transactions] ++ r.by_product).map toDisplay).filter
        (fun x => x.severity == s) := by
  unfold get_alerts_for_display at hdisp
  rw [hrun] at hdisp
  injection hdisp with hl
  subst hl
  exact ⟨List.sorted_insertionSort displayLE _,
    fun s => filter_insertionSort_severity s _⟩

/-- C6 witness: the ranking and stability statement on the two-entry
store. -/
theorem c6_display_sorted_stable_witness :
    List.Sorted displayLE displayShort ∧
    displayShort.filter (fun x => x.severity == "normal") =
      (([runShort.total_tpv, runShort.transactions] ++ runShort.by_product).map
        toDisplay).filter (fun x => x.severity == "normal") :=
  ⟨(c6_display_sorted_stable defaultDetector srcShort runShort displayShort rfl rfl).1,
    (c6_display_sorted_stable defaultDetector srcShort runShort displayShort rfl rfl).2
      "normal"⟩

/-- Helper: rounding a natural number viewed as a rational is the
identity. -/
theorem roundHalfEven_natCast (n : ℕ) : roundHalfEven (n : ℚ) = n := by
  unfold roundHalfEven
  rw [Int.floor_natCast]
  norm_num

/-- Helper: the two-decimal rendering of zero. -/
theorem fmt_c2_zero : fmtFixedQ false 2 0 = "0.00" := by
  simp only [fmtFixedQ]
  rw [show (0 : ℚ) * 10 ^ 2 = ((0 : ℕ) : ℚ) by norm_num, roundHalfEven_natCast]
  rfl

/-- Helper: the integer rendering of 200. -/
theorem fmt_c0_200 : fmtFixedQ true 0 200 = "200" := by
  simp only [fmtFixedQ]
  rw [show (200 : ℚ) * 10 ^ 0 = ((200 : ℕ) : ℚ) by norm_num, roundHalfEven_natCast]
  rfl

/-- Helper: the currency rendering of 200. -/
theorem fmt_c2_200 : fmtFixedQ true 2 200 = "200.00" := by
  simp only [fmtFixedQ]
  rw [show (200 : ℚ) * 10 ^ 2 = ((20000 : ℕ) : ℚ) by norm_num, roundHalfEven_natCast]
  rfl

/-- Helper: the message built by `_format_message` coincides, for every
input, with the template of the specification (section 4.4 step 5). -/
theorem format_message_matches_spec (metric dimension : String) (z : Option ZVal)
    (chg : Option ℚ) (cur : ℚ) (exp : Option ℚ) :
    format_message metric dimension z chg cur exp =
      spec_message metric dimension z chg cur exp := rfl

/-- C7 (amended): the alerts of the total-TPV check and of every
per-product check carry messages following the formation rules of the
specification (direction word from the Z-score sign, `Total <METRIC>`
label for the total dimension and `<METRIC> for <DIMENSION>` otherwise,
one-decimal absolute change, two-decimal Z-score, two-decimal currency
values); the transaction-count check does not use these rules. -/
theorem c7_tpv_messages_follow_spec (d : AnomalyDetector) (src : DataSource)
    (p : String) (a b : Alert)
    (h1 : check_total_tpv d src = .ok a)
    (h2 : productAlert d src p = .ok b) :
    a.message = spec_message "tpv" "total" a.z_score a.change_pct
      a.current_value a.expected_value ∧
    b.message = spec_message "tpv" p b.z_score b.change_pct
      b.current_value b.expected_value := by
  constructor
  · unfold check_total_tpv at h1
    cases hs : src.tpv_daily with
    | error e =>
      rw [hs] at h1
      exact Except.noConfusion h1
    | ok xs =>
      rw [hs] at h1
      cases xs with
      | nil => exact Except.noConfusion h1
      | cons v t =>
        injection h1 with ha
        subst ha
        exact format_message_matches_spec "tpv" "total" _ _ _ _
  · unfold productAlert at h2
    cases hs : src.product_daily p with
    | error e =>
      rw [hs] at h2
      exact Except.noConfusion h2
    | ok xs =>
      rw [hs] at h2
      cases xs with
      | nil => exact Except.noConfusion h2
      | cons v t =>
        injection h2 with hb
        subst hb
        exact format_message_matches_spec "tpv" p _ _ _ _

/-- C7 witness: the amended statement at the single-entry store. -/
theorem c7_tpv_messages_follow_spec_witness :
    alertSingleTPV.message = spec_message "tpv" "total" alertSingleTPV.z_score
      alertSingleTPV.change_pct alertSingleTPV.current_value
      alertSingleTPV.expected_value ∧
    alertSingleProduct.message = spec_message "tpv" "pix" alertSingleProduct.z_score
      alertSingleProduct.change_pct alertSingleProduct.current_value
      alertSingleProduct.expected_value :=
  c7_tpv_messages_follow_spec defaultDetector srcSingle "pix" alertSingleTPV
    alertSingleProduct rfl rfl

/-- C7 counterexample: the alert of the transaction-count check carries
a message that does not follow the formation rules of the
specification: its label is `Transaction count` instead of
`Total TRANSACTIONS` and its values are rendered without the currency
prefix and without decimals. -/
theorem c7_txn_message_counterexample :
    alertShortTxn.message ≠ spec_message "transactions" "total" alertShortTxn.z_score
      alertShortTxn.change_pct alertShortTxn.current_value
      alertShortTxn.expected_value := by
  have h1 : alertShortTxn.message = transactions_message (some ZVal.zero) none 200 none :=
    rfl
  have h2 : alertShortTxn.z_score = some ZVal.zero := rfl
  have h3 : alertShortTxn.change_pct = none := rfl
  have h4 : alertShortTxn.current_value = 200 := rfl
  have h5 : alertShortTxn.expected_value = none := rfl
  rw [h1, h2, h3, h4, h5]
  have hL : transactions_message (some ZVal.zero) none 200 none =
      "Transaction count spiked nan% (Z-score: 0.00). Current: 200, Expected: nan" := by
    simp only [transactions_message, zRender, ZVal.render2, fmtOpt, Option.map_none',
      fmt_c2_zero, fmt_c0_200]
    rfl
  have hR : spec_message "transactions" "total" (some ZVal.zero) none 200 none =
      "Total TRANSACTIONS spiked nan% (Z-score: 0.00). Current: R$ 200.00, Expected: R$ nan" := by
    simp only [spec_message, zRender, ZVal.render2, fmtOpt, Option.map_none',
      fmt_c2_zero, fmt_c2_200, if_true]
    decide
  rw [hL, hR]
  decide
